import Mathlib

/-!
# Verification of the MDAnalysisTutorial Sphinx configuration (doc/sphinx/conf.py)

The repository consists of a single Python module, `doc/sphinx/conf.py`, that is
executed top to bottom by Sphinx and leaves a set of module-level configuration
variables behind.  We embed the module shallowly: Python values become `PyVal`,
the (few) expression forms the file actually uses become `PyExpr`, and the
module is the statement list `confStmts`, executed by `runStmts` over an
environment mapping variable names to values.

Modelling conventions:
* Python `dict` and `collections.OrderedDict` are both insertion-ordered
  mappings in the versions relevant here, so both are modelled as ordered
  association lists; assigning to an existing key replaces its value in place,
  assigning to a fresh key appends it (`setKey`).
* All dictionary keys occurring in the file are strings, so keys are `String`.
* Python strings are `String`; `str.split` with the one-character separator
  used in the file is `pySplit`, `sep.join` is `pyJoin`, and
  `str.format` with the single positional placeholder `\x7b0\x7d` used in the
  file is `pyFormat1`.
* Expressions that can fail at run time (name lookup, `d[key]`, `split`/`join`
  on values of the wrong shape) evaluate to `Option PyVal`, with `none` for a
  Python exception; executing a statement likewise yields `Option` of the new
  environment.
* `import sys, os` and `from collections import OrderedDict` bind module
  objects that the configuration variables never depend on, so the
  `moduleImport` statement leaves the environment unchanged; the call
  `OrderedDict()` is the expression `emptyOrderedDict`.
* No statement of the file mutates a mapping after another variable has
  captured it, so modelling variables by value (without object identity)
  yields the same final environment as Python's heap semantics.
-/

/-- Python values occurring in `conf.py`: strings, integers, booleans, `None`,
lists, tuples, and insertion-ordered dictionaries with string keys. -/
inductive PyVal : Type where
  | str : String → PyVal
  | int : Int → PyVal
  | bool : Bool → PyVal
  | none : PyVal
  | list : List PyVal → PyVal
  | tuple : List PyVal → PyVal
  | dict : List (String × PyVal) → PyVal

/-- Atomic expressions: literals, variable references, and a subscript
`x[key]` of a variable by a string-literal key (the only subscript shape in
the file, e.g. `color['orange']`). -/
inductive PyAtom : Type where
  | lit : PyVal → PyAtom
  | var : String → PyAtom
  | subscriptVar : String → String → PyAtom

/-- The expression forms used by `conf.py`:
atoms, the call `OrderedDict()`, dictionary displays whose values are atomic
(as in `html_theme_options`), `e.split(sep)` for a one-character separator,
the slice `e[:n]`, `sep.join(e)`, and `fmt.format(e)` (line 122). -/
inductive PyExpr : Type where
  | atom : PyAtom → PyExpr
  | emptyOrderedDict : PyExpr
  | dictE : List (String × PyAtom) → PyExpr
  | split : PyExpr → Char → PyExpr
  | sliceTo : PyExpr → Nat → PyExpr
  | join : String → PyExpr → PyExpr
  | format1 : String → PyExpr → PyExpr

/-- The statement forms used by `conf.py`: imports, assignment to a module
variable, and item assignment `x[key] = e` with a string-literal key. -/
inductive PyStmt : Type where
  | moduleImport : List String → PyStmt
  | assign : String → PyExpr → PyStmt
  | setItem : String → String → PyExpr → PyStmt

/-- Ordered-association-list update: replace the value of an existing key in
place, or append a new key at the end — the key-update semantics shared by
Python `dict` and `collections.OrderedDict`, also used for the module's
variable environment. -/
def setKey (k : String) (v : PyVal) : List (String × PyVal) → List (String × PyVal)
  | [] => [(k, v)]
  | (k2, w) :: rest => if k2 = k then (k2, v) :: rest else (k2, w) :: setKey k v rest

/-- Ordered-association-list lookup (Python `d[k]` / module-variable lookup),
`none` on a missing key (`KeyError` / `NameError`). -/
def getKey (k : String) : List (String × PyVal) → Option PyVal
  | [] => Option.none
  | (k2, w) :: rest => if k2 = k then some w else getKey k rest

/-- The module's variable environment: an insertion-ordered mapping from
variable names to values. -/
abbrev Env := List (String × PyVal)

/-- Python `s.split(sep)` for a one-character separator `sep` (the file only
splits on a dot): split the character sequence at every occurrence of `sep`. -/
def pySplit (sep : Char) (s : String) : List String :=
  (s.data.splitOn sep).map String.mk

/-- Python `sep.join(parts)`: concatenate `parts` with `sep` between
consecutive elements. -/
def pyJoin (sep : String) (parts : List String) : String :=
  String.mk (List.intercalate sep.data (parts.map String.data))

/-- Replace every occurrence of the placeholder `\x7b0\x7d` in the character
sequence by `arg`. -/
def subst0 (arg : List Char) : List Char → List Char
  | '\x7b' :: '0' :: '\x7d' :: rest => arg ++ subst0 arg rest
  | c :: rest => c :: subst0 arg rest
  | [] => []

/-- Python `fmt.format(arg)` for the single positional placeholder
`\x7b0\x7d` and a string argument, as used for `rst_epilog` on line 122. -/
def pyFormat1 (fmt : String) (arg : String) : String :=
  String.mk (subst0 arg.data fmt.data)

/-- Evaluate an atomic expression in an environment. -/
def evalAtom (env : Env) : PyAtom → Option PyVal
  | .lit v => some v
  | .var x => getKey x env
  | .subscriptVar x k =>
    match getKey x env with
    | some (.dict d) => getKey k d
    | _ => Option.none

/-- Evaluate the entries of a dictionary display left to right, inserting each
into the accumulated dictionary. -/
def evalEntries (env : Env) (acc : List (String × PyVal)) :
    List (String × PyAtom) → Option (List (String × PyVal))
  | [] => some acc
  | (k, a) :: rest =>
    match evalAtom env a with
    | some v => evalEntries env (setKey k v acc) rest
    | Option.none => Option.none

/-- Extract the strings of a Python list value, `none` if some element is not
a string (Python `sep.join` raises `TypeError` there). -/
def allStrings : List PyVal → Option (List String)
  | [] => some []
  | .str s :: rest =>
    match allStrings rest with
    | some l => some (s :: l)
    | Option.none => Option.none
  | _ => Option.none

/-- Evaluate an expression of `conf.py` in an environment. -/
def evalExpr (env : Env) : PyExpr → Option PyVal
  | .atom a => evalAtom env a
  | .emptyOrderedDict => some (.dict [])
  | .dictE entries =>
    match evalEntries env [] entries with
    | some d => some (.dict d)
    | Option.none => Option.none
  | .split e sep =>
    match evalExpr env e with
    | some (.str s) => some (.list ((pySplit sep s).map PyVal.str))
    | _ => Option.none
  | .sliceTo e n =>
    match evalExpr env e with
    | some (.list l) => some (.list (l.take n))
    | _ => Option.none
  | .join sep e =>
    match evalExpr env e with
    | some (.list l) =>
      match allStrings l with
      | some parts => some (.str (pyJoin sep parts))
      | Option.none => Option.none
    | _ => Option.none
  | .format1 fmt e =>
    match evalExpr env e with
    | some (.str s) => some (.str (pyFormat1 fmt s))
    | _ => Option.none

/-- Execute one statement of `conf.py`. -/
def execStmt (env : Env) : PyStmt → Option Env
  | .moduleImport _ => some env
  | .assign x e =>
    match evalExpr env e with
    | some v => some (setKey x v env)
    | Option.none => Option.none
  | .setItem x k e =>
    match evalExpr env e with
    | some v =>
      match getKey x env with
      | some (.dict d) => some (setKey x (.dict (setKey k v d)) env)
      | _ => Option.none
    | Option.none => Option.none

/-- Execute a statement list from an initial environment, stopping with
`none` if a statement raises. -/
def runStmts (env : Env) : List PyStmt → Option Env
  | [] => some env
  | s :: rest =>
    match execStmt env s with
    | some env2 => runStmts env2 rest
    | Option.none => Option.none

/-- String-literal expression shorthand. -/
def litStr (s : String) : PyExpr := .atom (.lit (.str s))

/-- Literal-value expression shorthand. -/
def litV (v : PyVal) : PyExpr := .atom (.lit v)

/-- The statement list of `doc/sphinx/conf.py`, top to bottom (comments and
blank lines omitted; the line numbers of the source file are noted). -/
def confStmts : List PyStmt := [
  -- line 15-16: import sys / import os
  .moduleImport ["sys", "os"],
  -- lines 31-39
  .assign "extensions" (litV (.list [
    .str "sphinx.ext.autodoc",
    .str "sphinx.ext.intersphinx",
    .str "sphinx.ext.mathjax",
    .str "sphinx.ext.ifconfig",
    .str "sphinx.ext.viewcode",
    .str "sphinx.ext.githubpages",
    .str "sphinx_sitemap"])),
  -- line 41
  .assign "mathjax_path" (litStr "https://cdnjs.cloudflare.com/ajax/libs/mathjax/2.7.0/MathJax.js?config=TeX-AMS-MML_HTMLorMML"),
  -- line 44
  .assign "site_url" (litStr "https://www.mdanalysis.org/MDAnalysisTutorial/"),
  -- line 47
  .assign "templates_path" (litV (.list [.str "_templates"])),
  -- line 50
  .assign "source_suffix" (litStr ".rst"),
  -- line 56
  .assign "master_doc" (litStr "index"),
  -- line 59
  .assign "project" (litStr "MDAnalysis Tutorial"),
  -- line 60
  .assign "copyright" (litStr "2015-2017, Oliver Beckstein, Max Linke"),
  -- line 67
  .assign "release" (litStr "2.0.0"),
  -- line 69: version = ".".join(release.split('.')[:2])
  .assign "version" (.join "." (.sliceTo (.split (.atom (.var "release")) '.') 2)),
  -- line 75
  .assign "MDAnalysis_version" (litStr "0.16.2"),
  -- line 79
  .assign "language" (litStr "en"),
  -- line 89
  .assign "exclude_patterns" (litV (.list [.str "_build", .str "Thumbs.db", .str ".DS_Store"])),
  -- line 107
  .assign "pygments_style" (litStr "sphinx"),
  -- line 116
  .assign "autoclass_content" (litStr "both"),
  -- lines 120-122: rst_epilog = """...""".format(MDAnalysis_version)
  .assign "rst_epilog" (.format1 "\n.. |MDAnalysis_version| replace:: {0}\n" (.atom (.var "MDAnalysis_version"))),
  -- line 125
  .assign "numfig" (litV (.bool true)),
  -- line 132
  .assign "html_theme" (litStr "alabaster"),
  -- lines 141-144
  .assign "color" (litV (.dict [
    ("orange", .str "#FF9200"),
    ("gray", .str "#808080"),
    ("white", .str "#FFFFFF"),
    ("black", .str "#000000")])),
  -- line 146: from collections import OrderedDict
  .moduleImport ["OrderedDict"],
  -- line 147: extra_nav_links = OrderedDict()
  .assign "extra_nav_links" .emptyOrderedDict,
  -- lines 148-153
  .setItem "extra_nav_links" "MDAnalysis" (litStr "http://mdanalysis.org"),
  .setItem "extra_nav_links" "docs" (litStr "http://docs.mdanalysis.org"),
  .setItem "extra_nav_links" "wiki" (litStr "http://wiki.mdanalysis.org"),
  .setItem "extra_nav_links" "user discussion group" (litStr "http://users.mdanalysis.org"),
  .setItem "extra_nav_links" "GitHub" (litStr "https://github.com/mdanalysis"),
  .setItem "extra_nav_links" "@mdanalysis" (litStr "https://twitter.com/mdanalysis"),
  -- lines 155-179
  .assign "html_theme_options" (.dictE [
    ("logo", .lit (.str "logos/mdanalysistutorial-logo-200x150.png")),
    ("github_user", .lit (.str "MDAnalysis")),
    ("github_repo", .lit (.str "mdanalysis")),
    ("github_button", .lit (.bool false)),
    ("github_banner", .lit (.bool true)),
    ("show_related", .lit (.bool true)),
    ("fixed_sidebar", .lit (.bool false)),
    ("sidebar_includehidden", .lit (.bool true)),
    ("sidebar_collapse", .lit (.bool true)),
    ("link", .subscriptVar "color" "orange"),
    ("link_hover", .subscriptVar "color" "orange"),
    ("gray_1", .subscriptVar "color" "gray"),
    ("narrow_sidebar_bg", .subscriptVar "color" "gray"),
    ("narrow_sidebar_fg", .subscriptVar "color" "white"),
    ("font_family", .lit (.str "'PT Sans', Helvetica, Arial, 'sans-serif'")),
    ("head_font_family", .lit (.str "")),
    ("code_font_family", .lit (.str "Menlo, Monaco, 'Courier New', monospace")),
    ("caption_font_size", .lit (.str "smaller")),
    ("extra_nav_links", .var "extra_nav_links")]),
  -- line 184
  .assign "html_favicon" (litStr "_static/logos/mdanalysis-logo.ico"),
  -- line 190
  .assign "html_static_path" (litV (.list [.str "_static"])),
  -- lines 194-201
  .assign "html_sidebars" (litV (.dict [
    ("**", .list [
      .str "about.html",
      .str "navigation.html",
      .str "relations.html",
      .str "searchbox.html"])])),
  -- lines 206-215 (all entries commented out in the source)
  .assign "latex_elements" (litV (.dict [])),
  -- lines 220-223
  .assign "latex_documents" (litV (.list [
    .tuple [.str "index", .str "MDAnalysisTutorial.tex",
            .str "MDAnalysis Tutorial Documentation",
            .str "Oliver Beckstein, Max Linke", .str "manual"]])),
  -- lines 250-253
  .assign "man_pages" (litV (.list [
    .tuple [.str "index", .str "mdanalysistutorial",
            .str "MDAnalysis Tutorial Documentation",
            .list [.str "Oliver Beckstein", .str "Max Linke"], .int 1]])),
  -- lines 264-268
  .assign "texinfo_documents" (litV (.list [
    .tuple [.str "index", .str "MDAnalysisTutorial",
            .str "MDAnalysis Tutorial Documentation",
            .str "Oliver Beckstein, Max Linke", .str "MDAnalysisTutorial",
            .str "One line description of project.", .str "Miscellaneous"]])),
  -- lines 284-288
  .assign "intersphinx_mapping" (litV (.dict [
    ("http://docs.python.org/", .none),
    ("http://docs.mdanalysis.org/", .none),
    ("http://matplotlib.org", .none),
    ("http://docs.scipy.org/doc/numpy/", .none)]))]

/-- The value of a configuration variable after the whole module has run. -/
def cfg (x : String) : Option PyVal :=
  match runStmts [] confStmts with
  | some env => getKey x env
  | Option.none => Option.none

/-- The value of a variable after only the first `n` statements have run. -/
def cfgAfter (n : Nat) (x : String) : Option PyVal :=
  match runStmts [] (confStmts.take n) with
  | some env => getKey x env
  | Option.none => Option.none

/-- Look a string key up in an (optional) dictionary value. -/
def dictGet (v : Option PyVal) (k : String) : Option PyVal :=
  match v with
  | some (.dict d) => getKey k d
  | _ => Option.none

/-- The computation of line 69 of `conf.py` on an arbitrary release string:
`".".join(release.split('.')[:2])`. -/
def computeVersion (release : String) : String :=
  pyJoin "." ((pySplit '.' release).take 2)

/-- A statement that performs no computation: an import, or the assignment of
a constant literal to a variable. -/
def stmtIsDeclarative : PyStmt → Bool
  | .moduleImport _ => true
  | .assign _ (.atom (.lit _)) => true
  | _ => false

/-- Is the statement an item assignment `x[key] = e` (the only mutating
statement form of the file)? -/
def isSetItem : PyStmt → Bool
  | .setItem _ _ _ => true
  | _ => false

/-- The assignment targets of the module, in order. -/
def assignTargets : List String :=
  confStmts.filterMap fun s =>
    match s with
    | .assign x _ => some x
    | _ => Option.none

/-- The variables targeted by item assignments, in order. -/
def setItemTargets : List String :=
  confStmts.filterMap fun s =>
    match s with
    | .setItem x _ _ => some x
    | _ => Option.none

/-- The expression assigned to a variable by its (first) defining assignment. -/
def stmtBinding (x : String) : Option PyExpr :=
  (confStmts.filterMap fun s =>
    match s with
    | .assign y e => if y = x then some e else Option.none
    | _ => Option.none).head?

/-- Is the variable bound directly to a string literal? -/
def boundToStrLit (x : String) : Bool :=
  match stmtBinding x with
  | some (.atom (.lit (.str _))) => true
  | _ => false

/-- A non-empty Python string. -/
def isNonemptyStr : PyVal → Bool
  | .str s => !s.isEmpty
  | _ => false

/-- An authors field: a non-empty string, or a non-empty list of non-empty
strings (the shape used by `man_pages`). -/
def isAuthorsField : PyVal → Bool
  | .str s => !s.isEmpty
  | .list l => !l.isEmpty && l.all isNonemptyStr
  | _ => false

/-- A category field: a non-empty string (LaTeX document class, Texinfo
category) or an integer (manual section). -/
def isCategoryField : PyVal → Bool
  | .str s => !s.isEmpty
  | .int _ => true
  | _ => false

/-- Does the value describe one output document: a tuple whose first three
components are a non-empty source start file, target name and title, whose
fourth component names the authors, and whose last component is a category? -/
def describesDocument : PyVal → Bool
  | .tuple (src :: tgt :: title :: authors :: rest) =>
    isNonemptyStr src && isNonemptyStr tgt && isNonemptyStr title &&
    isAuthorsField authors &&
    (match rest.getLast? with
     | some c => isCategoryField c
     | Option.none => false)
  | _ => false

/-- Is the value a non-empty list of output-document descriptors? -/
def docListOk (v : Option PyVal) : Bool :=
  match v with
  | some (.list docs) => !docs.isEmpty && docs.all describesDocument
  | _ => false

/-- Is the value a list all of whose elements are strings? -/
def isStrList : PyVal → Bool
  | .list ts => ts.all fun t =>
      match t with
      | .str _ => true
      | _ => false
  | _ => false

/-- Is the value a dictionary each of whose values is a list of strings? -/
def sidebarsOk (v : Option PyVal) : Bool :=
  match v with
  | some (.dict m) => m.all fun kv => isStrList kv.2
  | _ => false

/-- The string content of a Python string value. -/
def asStr : PyVal → Option String
  | .str s => some s
  | _ => Option.none

/-- The strings of a Python list value, if every element is a string. -/
def asStrList (v : Option PyVal) : Option (List String) :=
  match v with
  | some (.list l) => l.mapM asStr
  | _ => Option.none

/-- `List.intercalate` unfolded once on a list of at least two chunks. -/
theorem intercalateTwoCons (s a b : List Char) (l : List (List Char)) :
    List.intercalate s (a :: b :: l) = a ++ s ++ List.intercalate s (b :: l) := by
  simp [List.intercalate, List.intersperse_cons_cons, List.flatten]

/-- If a character list splits on the dot into at least three chunks, then
re-joining the first two chunks, followed by a dot, is a prefix of it. -/
theorem splitOn_take_two_append (r : List Char)
    (h : 3 ≤ (r.splitOn '.').length) :
    ∃ t : List Char,
      List.intercalate ['.'] ((r.splitOn '.').take 2) ++ '.' :: t = r := by
  have hr : List.intercalate ['.'] (r.splitOn '.') = r :=
    List.intercalate_splitOn r '.'
  rcases hps : r.splitOn '.' with _ | ⟨a, _ | ⟨b, _ | ⟨c, t⟩⟩⟩ <;>
    rw [hps] at h hr <;> simp at h
  refine ⟨List.intercalate ['.'] (c :: t), ?_⟩
  rw [← hr]
  simp only [List.take_succ_cons, List.take_zero, intercalateTwoCons]
  simp [List.intercalate, List.append_assoc]

/-- Unpacking the characters of strings rebuilt from character lists. -/
theorem map_data_mk (l : List (List Char)) :
    l.map (String.data ∘ String.mk) = l := by
  induction l with
  | nil => rfl
  | cons a t ih => simp [ih, Function.comp]

/-- The characters of `computeVersion r`, expressed at the list level. -/
theorem computeVersion_data (r : String) : (computeVersion r).data =
    List.intercalate ['.'] ((r.data.splitOn '.').take 2) := by
  simp [computeVersion, pyJoin, pySplit, List.map_take, List.map_map, map_data_mk]

/-- For any release string with at least three dot-separated components, the
computed short version followed by a dot is a prefix of the release string. -/
theorem computeVersion_dot_prefix (r : String)
    (h : 3 ≤ (pySplit '.' r).length) :
    ∃ t : String, computeVersion r ++ "." ++ t = r := by
  have hlen : 3 ≤ (r.data.splitOn '.').length := by
    simpa [pySplit] using h
  obtain ⟨t, ht⟩ := splitOn_take_two_append r.data hlen
  refine ⟨String.mk t, ?_⟩
  apply String.ext
  have hdot : ("." : String).data = ['.'] := rfl
  have hmk : (String.mk t).data = t := rfl
  simp only [String.data_append, computeVersion_data, hdot, hmk]
  simpa [List.append_assoc] using ht

/-- C4: executing the configuration module from top to bottom terminates (the
embedding is total, so termination is inherent) and no statement raises: the
whole statement list runs to a final environment, so the module is well-formed
and loadable. -/
theorem conf_module_loads : (runStmts [] confStmts).isSome = true := rfl

/-- C2 (counterexample): the `version` variable is not bound directly to a
literal string — its defining assignment on line 69 is the computed
expression `".".join(release.split('.')[:2])`. -/
theorem version_not_string_literal : boundToStrLit "version" = false := rfl

/-- C2 (amended): `release` is bound directly to the literal string "2.0.0",
while `version` is bound to the expression `".".join(release.split('.')[:2])`,
which derives it from `release` and evaluates to "2.0". -/
theorem release_literal_version_derived :
    boundToStrLit "release" = true ∧
    stmtBinding "release" = some (litStr "2.0.0") ∧
    stmtBinding "version" =
      some (.join "." (.sliceTo (.split (.atom (.var "release")) '.') 2)) ∧
    cfg "version" = some (.str "2.0") :=
  ⟨rfl, rfl, rfl, rfl⟩

/-- C3 (counterexample): not every top-level statement assigns a constant
literal: statement 10 of the module (line 69) assigns to `version` a computed
expression that splits `release` on dots and joins the first two components. -/
theorem conf_not_all_literal :
    confStmts[10]? = some (.assign "version"
      (.join "." (.sliceTo (.split (.atom (.var "release")) '.') 2))) ∧
    stmtIsDeclarative (.assign "version"
      (.join "." (.sliceTo (.split (.atom (.var "release")) '.') 2))) = false :=
  ⟨rfl, rfl⟩

/-- C3 (amended): every top-level statement of the module is an import or the
assignment of a constant literal, except exactly ten: the `version`
computation (string splitting and joining), the `rst_epilog` formatting, the
incremental construction of `extra_nav_links` (an `OrderedDict()` call
followed by six item assignments), and the `html_theme_options` dictionary
display, which references entries of `color` and the variable
`extra_nav_links`. -/
theorem conf_literal_except_listed :
    confStmts.filter (fun s => !stmtIsDeclarative s) = [
      .assign "version" (.join "." (.sliceTo (.split (.atom (.var "release")) '.') 2)),
      .assign "rst_epilog" (.format1 "\n.. |MDAnalysis_version| replace:: {0}\n"
        (.atom (.var "MDAnalysis_version"))),
      .assign "extra_nav_links" .emptyOrderedDict,
      .setItem "extra_nav_links" "MDAnalysis" (litStr "http://mdanalysis.org"),
      .setItem "extra_nav_links" "docs" (litStr "http://docs.mdanalysis.org"),
      .setItem "extra_nav_links" "wiki" (litStr "http://wiki.mdanalysis.org"),
      .setItem "extra_nav_links" "user discussion group" (litStr "http://users.mdanalysis.org"),
      .setItem "extra_nav_links" "GitHub" (litStr "https://github.com/mdanalysis"),
      .setItem "extra_nav_links" "@mdanalysis" (litStr "https://twitter.com/mdanalysis"),
      .assign "html_theme_options" (.dictE [
        ("logo", .lit (.str "logos/mdanalysistutorial-logo-200x150.png")),
        ("github_user", .lit (.str "MDAnalysis")),
        ("github_repo", .lit (.str "mdanalysis")),
        ("github_button", .lit (.bool false)),
        ("github_banner", .lit (.bool true)),
        ("show_related", .lit (.bool true)),
        ("fixed_sidebar", .lit (.bool false)),
        ("sidebar_includehidden", .lit (.bool true)),
        ("sidebar_collapse", .lit (.bool true)),
        ("link", .subscriptVar "color" "orange"),
        ("link_hover", .subscriptVar "color" "orange"),
        ("gray_1", .subscriptVar "color" "gray"),
        ("narrow_sidebar_bg", .subscriptVar "color" "gray"),
        ("narrow_sidebar_fg", .subscriptVar "color" "white"),
        ("font_family", .lit (.str "'PT Sans', Helvetica, Arial, 'sans-serif'")),
        ("head_font_family", .lit (.str "")),
        ("code_font_family", .lit (.str "Menlo, Monaco, 'Courier New', monospace")),
        ("caption_font_size", .lit (.str "smaller")),
        ("extra_nav_links", .var "extra_nav_links")])] := rfl

/-- C1 (counterexample): `extra_nav_links` is changed by statements that run
after its defining statement: right after its definition (statement 21, line
147) it is the empty mapping, while at the end of the module it holds six
entries, so its value after the defining statement differs from its final
value. -/
theorem extra_nav_links_mutated :
    cfgAfter 22 "extra_nav_links" = some (.dict []) ∧
    cfg "extra_nav_links" = some (.dict [
      ("MDAnalysis", .str "http://mdanalysis.org"),
      ("docs", .str "http://docs.mdanalysis.org"),
      ("wiki", .str "http://wiki.mdanalysis.org"),
      ("user discussion group", .str "http://users.mdanalysis.org"),
      ("GitHub", .str "https://github.com/mdanalysis"),
      ("@mdanalysis", .str "https://twitter.com/mdanalysis")]) ∧
    PyVal.dict [] ≠ PyVal.dict [
      ("MDAnalysis", .str "http://mdanalysis.org"),
      ("docs", .str "http://docs.mdanalysis.org"),
      ("wiki", .str "http://wiki.mdanalysis.org"),
      ("user discussion group", .str "http://users.mdanalysis.org"),
      ("GitHub", .str "https://github.com/mdanalysis"),
      ("@mdanalysis", .str "https://twitter.com/mdanalysis")] :=
  ⟨rfl, rfl, by simp⟩

/-- C1 (amended): every configuration variable is bound by exactly one
assignment statement; the only mutating statements of the module are the six
item assignments into `extra_nav_links` (statements 22-27, lines 148-153),
which immediately follow its defining statement 21; no statement before or
after that block mutates anything, and in particular neither
`extra_nav_links` nor the `html_theme_options` mapping that embeds it changes
after the block completes. -/
theorem config_vars_bound_once :
    assignTargets.Nodup ∧
    setItemTargets = ["extra_nav_links", "extra_nav_links", "extra_nav_links",
      "extra_nav_links", "extra_nav_links", "extra_nav_links"] ∧
    confStmts[21]? = some (.assign "extra_nav_links" .emptyOrderedDict) ∧
    ((confStmts.take 22).all fun s => !isSetItem s) = true ∧
    ((confStmts.drop 28).all fun s => !isSetItem s) = true ∧
    cfgAfter 28 "extra_nav_links" = cfg "extra_nav_links" ∧
    cfgAfter 29 "html_theme_options" = cfg "html_theme_options" :=
  ⟨by decide, rfl, rfl, rfl, rfl, rfl, rfl⟩

/-- C5: each of `latex_documents`, `man_pages` and `texinfo_documents` is a
non-empty ordered sequence whose every element is a tuple describing one
output document: a non-empty source start file, target name and title, an
authors field, and a category field (LaTeX document class, manual section, or
Texinfo category). -/
theorem output_document_lists_ok :
    docListOk (cfg "latex_documents") = true ∧
    docListOk (cfg "man_pages") = true ∧
    docListOk (cfg "texinfo_documents") = true :=
  ⟨rfl, rfl, rfl⟩

/-- C6 (counterexample): the entry of `intersphinx_mapping` for the external
documentation set "http://docs.python.org/" has `None` as its value, so its
index-location value is absent rather than a non-empty location. -/
theorem intersphinx_value_absent :
    dictGet (cfg "intersphinx_mapping") "http://docs.python.org/" =
      some PyVal.none := rfl

/-- C6 (amended): `intersphinx_mapping` maps four distinct, non-empty URLs
identifying external documentation sets each to `None` — the placeholder that
directs the external tool to fetch the inventory from its default location
under the key URL — rather than to explicit index locations. -/
theorem intersphinx_keys_present_values_none :
    cfg "intersphinx_mapping" = some (.dict [
      ("http://docs.python.org/", PyVal.none),
      ("http://docs.mdanalysis.org/", PyVal.none),
      ("http://matplotlib.org", PyVal.none),
      ("http://docs.scipy.org/doc/numpy/", PyVal.none)]) ∧
    (["http://docs.python.org/", "http://docs.mdanalysis.org/",
      "http://matplotlib.org", "http://docs.scipy.org/doc/numpy/"].all
        fun k => !k.isEmpty) = true ∧
    List.Nodup ["http://docs.python.org/", "http://docs.mdanalysis.org/",
      "http://matplotlib.org", "http://docs.scipy.org/doc/numpy/"] :=
  ⟨rfl, rfl, by decide⟩

/-- C7: `html_sidebars` is a mapping in which the value associated with every
document-name pattern key is a sequence of sidebar template names, each a
string; concretely it maps the pattern "**" to four template names. -/
theorem html_sidebars_template_lists :
    sidebarsOk (cfg "html_sidebars") = true ∧
    cfg "html_sidebars" = some (.dict [("**", .list [
      .str "about.html", .str "navigation.html",
      .str "relations.html", .str "searchbox.html"])]) :=
  ⟨rfl, rfl⟩

/-- C8: every element of `exclude_patterns` is a string, and no element
occurs twice. -/
theorem exclude_patterns_distinct_strings :
    asStrList (cfg "exclude_patterns") =
      some ["_build", "Thumbs.db", ".DS_Store"] ∧
    List.Nodup ["_build", "Thumbs.db", ".DS_Store"] :=
  ⟨rfl, by decide⟩

/-- C9: the short version is derived from the release string by joining the
first two dot-separated components with a dot: the module binds `release` to
"2.0.0" and `version` to the result of that computation, which is "2.0"; and
for every release string with at least three dot-separated components the
computed version followed by a dot is a prefix of the release string. -/
theorem version_short_of_release :
    cfg "release" = some (.str "2.0.0") ∧
    cfg "version" = some (.str (computeVersion "2.0.0")) ∧
    computeVersion "2.0.0" = "2.0" ∧
    ∀ r : String, 3 ≤ (pySplit '.' r).length →
      ∃ t : String, computeVersion r ++ "." ++ t = r :=
  ⟨rfl, rfl, rfl, computeVersion_dot_prefix⟩

/-- C9 (witness): the general prefix property instantiated at the concrete
release string "9.8.7rc1", whose split on dots has three components. -/
theorem version_short_of_release_witness :
    ∃ t : String, computeVersion "9.8.7rc1" ++ "." ++ t = "9.8.7rc1" :=
  version_short_of_release.2.2.2 "9.8.7rc1" (by decide)

/-- C10: the `link` and `link_hover` entries of `html_theme_options` both
equal the `orange` entry of the `color` table, the string "#FF9200"; and its
`narrow_sidebar_bg` and `gray_1` entries both equal the `gray` entry of the
`color` table, "#808080". -/
theorem theme_colors_consistent :
    dictGet (cfg "html_theme_options") "link" =
      dictGet (cfg "color") "orange" ∧
    dictGet (cfg "html_theme_options") "link_hover" =
      dictGet (cfg "color") "orange" ∧
    dictGet (cfg "color") "orange" = some (.str "#FF9200") ∧
    dictGet (cfg "html_theme_options") "narrow_sidebar_bg" =
      dictGet (cfg "color") "gray" ∧
    dictGet (cfg "html_theme_options") "gray_1" =
      dictGet (cfg "color") "gray" ∧
    dictGet (cfg "color") "gray" = some (.str "#808080") :=
  ⟨rfl, rfl, rfl, rfl, rfl, rfl⟩
